import Mathlib

/-!
A shallow embedding of the timestamp-normalization, aggregation and join
pipeline of importer.py (zonal load modeling).

Python strings are modelled as Lean String at the API boundary, with the
character-level work done on List Char (a Python str is a sequence of code
points, which List Char models exactly).  Python code that can raise an
exception (datetime.strptime, time.replace, list indexing) is modelled with
Option: none is a raised exception.  Pandas data frames keyed by the "Date"
column are modelled as lists of (key, value) rows; NaN cells are Option.none.
-/

/-- Python str.split(sep) for a one-character separator: split on every
occurrence of the separator, keeping empty segments. -/
def pySplit (sep : Char) : List Char → List (List Char)
  | [] => [[]]
  | c :: cs =>
    if c = sep then [] :: pySplit sep cs
    else
      match pySplit sep cs with
      | [] => [[c]]
      | g :: gs => (c :: g) :: gs

/-- Numeric value of a list of decimal digit characters. -/
def digitsVal (cs : List Char) : Nat :=
  cs.foldl (fun a c => a * 10 + (c.toNat - 48)) 0

/-- One numeric field of a strptime format string: every character is a
decimal digit, the field length lies in [minLen, maxLen] and the value in
[lo, hi].  The bounds combine the CPython _strptime field regexes with the
range validation done by the datetime/time constructors. -/
def parseField (cs : List Char) (minLen maxLen lo hi : Nat) : Option Nat :=
  if cs.all Char.isDigit ∧ minLen ≤ cs.length ∧ cs.length ≤ maxLen ∧
      lo ≤ digitsVal cs ∧ digitsVal cs ≤ hi then
    some (digitsVal cs)
  else none

/-- The date part of a Python datetime. -/
structure PyDate where
  year : Nat
  month : Nat
  day : Nat
deriving DecidableEq

/-- The time part of a Python datetime. -/
structure PyTime where
  hour : Nat
  minute : Nat
  second : Nat
deriving DecidableEq

/-- Gregorian leap-year rule used by the datetime module. -/
def isLeapYear (y : Nat) : Bool :=
  y % 4 == 0 && (y % 100 != 0 || y % 400 == 0)

/-- Length of a month, as validated by the datetime constructor. -/
def daysInMonth (y m : Nat) : Nat :=
  if m = 2 then (if isLeapYear y then 29 else 28)
  else if m = 4 ∨ m = 6 ∨ m = 9 ∨ m = 11 then 30
  else 31

/-- datetime.strptime(s, "%m/%d/%Y").date(): month and day are 1-2 digit
fields, the year exactly 4 digits; the day must exist in the month. -/
def strptime_mdY (s : String) : Option PyDate :=
  match pySplit '/' s.toList with
  | [ms, ds, ys] =>
    match parseField ms 1 2 1 12, parseField ds 1 2 1 31, parseField ys 4 4 1 9999 with
    | some m, some d, some y =>
      if d ≤ daysInMonth y m then some ⟨y, m, d⟩ else none
    | _, _, _ => none
  | _ => none

/-- datetime.strptime(s, "%H:%M").time(): hour 0-23 and minute 0-59, each a
1-2 digit field; strptime leaves the seconds at 0. -/
def strptime_HM (s : String) : Option PyTime :=
  match pySplit ':' s.toList with
  | [hs, ms] =>
    match parseField hs 1 2 0 23, parseField ms 1 2 0 59 with
    | some h, some m => some ⟨h, m, 0⟩
    | _, _ => none
  | _ => none

/-- datetime.strptime(s, "%Y-%m-%d %H:%M:%S"). -/
def strptime_YmdHMS (s : String) : Option (PyDate × PyTime) :=
  match pySplit ' ' s.toList with
  | [dpart, tpart] =>
    match pySplit '-' dpart, pySplit ':' tpart with
    | [ys, ms, ds], [hs, mins, ss] =>
      match parseField ys 4 4 1 9999, parseField ms 1 2 1 12, parseField ds 1 2 1 31,
            parseField hs 1 2 0 23, parseField mins 1 2 0 59, parseField ss 1 2 0 59 with
      | some y, some m, some d, some h, some mi, some sec =>
        if d ≤ daysInMonth y m then some (⟨y, m, d⟩, ⟨h, mi, sec⟩) else none
      | _, _, _, _, _, _ => none
    | _, _ => none
  | _ => none

/-- time.replace(hour=newHour, minute=newMinute): raises ValueError unless
0 ≤ hour ≤ 23 and 0 ≤ minute ≤ 59; the second field is kept.  The hour
argument is an Int because the caller passes hour - 1, which is negative
for hour 0. -/
def timeReplace (t : PyTime) (newHour : Int) (newMinute : Nat) : Option PyTime :=
  if 0 ≤ newHour ∧ newHour ≤ 23 ∧ newMinute ≤ 59 then
    some ⟨newHour.toNat, newMinute, t.second⟩
  else none

/-- Two-digit zero-padded decimal rendering (Python %02d for 0 ≤ n ≤ 99). -/
def pad2 (n : Nat) : List Char :=
  [Nat.digitChar (n / 10 % 10), Nat.digitChar (n % 10)]

/-- Four-digit zero-padded decimal rendering (Python %04d for 0 ≤ n ≤ 9999). -/
def pad4 (n : Nat) : List Char :=
  [Nat.digitChar (n / 1000 % 10), Nat.digitChar (n / 100 % 10),
   Nat.digitChar (n / 10 % 10), Nat.digitChar (n % 10)]

/-- str(datetime.combine(d, t)): the format "YYYY-MM-DD HH:MM:SS". -/
def formatDateTime (d : PyDate) (t : PyTime) : String :=
  String.mk (pad4 d.year ++ '-' :: pad2 d.month ++ '-' :: pad2 d.day ++
    ' ' :: pad2 t.hour ++ ':' :: pad2 t.minute ++ ':' :: pad2 t.second)

/-- importer.convert_date_time_tuple_into_date_time_object: parse the date
with "%m/%d/%Y"; if the hour-ending string is "24:00" replace it by "23:00"
and parse it; otherwise parse it with "%H:%M" and then replace the hour by
hour - 1 and the minute by 0; finally return str(datetime.combine(...)). -/
def convert_date_time_tuple_into_date_time_object
    (date_time_tuple : String × String) : Option String :=
  let date_string := date_time_tuple.1
  let time_string := date_time_tuple.2
  (strptime_mdY date_string).bind fun date_object =>
    if time_string = "24:00" then
      (strptime_HM "23:00").map fun time_object =>
        formatDateTime date_object time_object
    else
      (strptime_HM time_string).bind fun t =>
        (timeReplace t ((t.hour : Int) - 1) 0).map fun time_object =>
          formatDateTime date_object time_object

/-- importer.round_utc_hour_up: parse with "%Y-%m-%d %H:%M:%S", replace the
hour by (hour + 1) % 24 leaving the date fields unchanged, and render with
strftime("%Y-%m-%d %H:00:00"). -/
def round_utc_hour_up (dateString : String) : Option String :=
  (strptime_YmdHMS dateString).map fun dt =>
    let newHour := (dt.2.hour + 1) % 24
    String.mk (pad4 dt.1.year ++ '-' :: pad2 dt.1.month ++ '-' :: pad2 dt.1.day ++
      ' ' :: pad2 newHour ++ ':' :: '0' :: '0' :: ':' :: '0' :: '0' :: [])

/-- The fold in importer.compute_aggregate_load_data: the per-region frames
are combined with pd.concat, which concatenates the row sets in order;
reset_index().drop("index") only renumbers the rows.  The discovery and
CSV-parsing steps are factored out, so the argument is the list of per-file
row sets, each row keyed by its canonical Date string. -/
def compute_aggregate_load_data (dfs : List (List (String × α))) :
    List (String × α) :=
  dfs.flatten

/-- importer.merge_data_frames_by_column, i.e. pd.merge(df1, df2, on=column)
with the default inner join: every row of df1 is paired with every row of df2
carrying the same key, left rows in order, and the non-key columns of the two
sides are placed side by side. -/
def merge_data_frames_by_column (df1 : List (String × α)) (df2 : List (String × β)) :
    List (String × α × β) :=
  df1.flatMap fun r1 =>
    (df2.filter fun r2 => r1.1 == r2.1).map fun r2 => (r1.1, r1.2, r2.2)

/-- importer.get_total_data: pd.merge(load, weather, on="Date"), the inner
equi-join of the aggregated load table and the aggregated weather table. -/
def get_total_data (loadDf : List (String × α)) (weatherDf : List (String × β)) :
    List (String × α × β) :=
  merge_data_frames_by_column loadDf weatherDf

/-- importer.get_all_csv_files_in_directory: filter(lambda x: x[-4:] ==
".csv", listing).  The Python slice x[-4:] is the last four characters, or
the whole string when it is shorter. -/
def get_all_csv_files_in_directory (listing : List String) : List String :=
  listing.filter fun x => (x.toList.reverse.take 4).reverse == ".csv".toList

/-- The discovery step at the head of compute_aggregate_load_data and of
compute_aggregate_weather_data, with the filesystem passed explicitly: scan1
is the directory listing seen by the first get_all_csv_files_in_directory
call and scan2 the listing seen after the single os.system("unzip ...")
fallback.  The outcome (the csv file list, or the ValueError message) is
paired with the number of unzip invocations performed. -/
def discoverFamilyFiles (dir fam : String) (scan1 scan2 : List String) :
    Except String (List String) × Nat :=
  let files := get_all_csv_files_in_directory scan1
  if files.length = 0 then
    let files2 := get_all_csv_files_in_directory scan2
    if files2.length = 0 then
      (Except.error
        ("Missing " ++ fam ++ " data in csv format in the '" ++ dir ++ "' directory"), 1)
    else (Except.ok files2, 1)
  else (Except.ok files, 0)

/-- The load-family instance of the discovery step. -/
def load_source_discovery (scan1 scan2 : List String) :
    Except String (List String) × Nat :=
  discoverFamilyFiles "system_load_by_region" "load" scan1 scan2

/-- The weather-family instance of the discovery step. -/
def weather_source_discovery (scan1 scan2 : List String) :
    Except String (List String) × Nat :=
  discoverFamilyFiles "weather_data" "weather" scan1 scan2

/-- The station-name derivation in importer.read_weather_data_from_csv:
city = csv_path.split("_")[1].split("/")[1]; a missing index raises
IndexError, modelled by none. -/
def read_weather_city (csv_path : String) : Option String :=
  ((pySplit '_' csv_path.toList)[1]?).bind fun seg =>
    ((pySplit '/' seg)[1]?).map fun city => String.mk city

/-- The station-specific column name produced by
importer.read_weather_data_from_csv: city + "_TemperatureF". -/
def read_weather_temperature_column (csv_path : String) : Option String :=
  (read_weather_city csv_path).map fun city => city ++ "_TemperatureF"

/-- A single station's concatenated frame viewed as a one-column table:
each row holds the Date key and the station's <city>_TemperatureF cell
(possibly NaN).  The list-of-cells form lets the outer merges below grow
the column count. -/
def station_frame (l : List (String × Option α)) : List (String × List (Option α)) :=
  l.map fun r => (r.1, [r.2])

/-- pd.merge(t1, t2, on="Date", how="outer") for tables with n1 and n2
non-key columns: rows with equal keys pair up (a cross product when a key
repeats), a left row without a partner is padded on the right with n2 NaN
cells, and a right row without a partner is padded on the left with n1 NaN
cells.  The row order of this intermediate frame is irrelevant downstream:
compute_aggregate_weather_data sorts the final frame by Date. -/
def outerMergeOnDate (n1 n2 : Nat) (t1 t2 : List (String × List (Option α))) :
    List (String × List (Option α)) :=
  (t1.flatMap fun r1 =>
    if t2.any fun r2 => r1.1 == r2.1 then
      (t2.filter fun r2 => r1.1 == r2.1).map fun r2 => (r1.1, r1.2 ++ r2.2)
    else [(r1.1, r1.2 ++ List.replicate n2 none)]) ++
  ((t2.filter fun r2 => t1.all fun r1 => !(r1.1 == r2.1)).map fun r2 =>
    (r2.1, List.replicate n1 none ++ r2.2))

/-- pandas sort_values("Date"): stable sort ascending by the key column;
the canonical timestamp strings compare lexicographically. -/
def sort_values_by_date (t : List (String × List (Option α))) :
    List (String × List (Option α)) :=
  t.mergeSort fun a b => decide (a.1 ≤ b.1)

/-- importer.compute_aggregate_weather_data after the discovery and reading
steps: the three per-station concatenated frames (Dallas, Houston,
San Antonio) are folded with reduce(pd.merge(..., on="Date", how="outer"))
and the result is sorted by Date. -/
def compute_aggregate_weather_data
    (dallas_df houston_df san_antonio_df : List (String × Option α)) :
    List (String × List (Option α)) :=
  sort_values_by_date
    (outerMergeOnDate 2 1
      (outerMergeOnDate 1 1 (station_frame dallas_df) (station_frame houston_df))
      (station_frame san_antonio_df))

/-- On the non-"24:00" branch, once the date has parsed, the normalizer is
the composition of "%H:%M" parsing, the hour - 1 replacement and
formatting.  Shared by the hour-ending claims. -/
theorem convert_eq_of_parse (ds ts : String) (d : PyDate)
    (hds : strptime_mdY ds = some d) (hts : ts ≠ "24:00") :
    convert_date_time_tuple_into_date_time_object (ds, ts) =
      (strptime_HM ts).bind fun t =>
        (timeReplace t ((t.hour : Int) - 1) 0).map fun time_object =>
          formatDateTime d time_object := by
  simp [convert_date_time_tuple_into_date_time_object, hds, hts]

/-- Claim C1, counterexample: the hour-ending "24:00" does not normalize to
the canonical value "2014-01-02 22:00:00" that the claim asserts for it. -/
theorem claim_C1_counterexample :
    convert_date_time_tuple_into_date_time_object ("01/02/2014", "24:00") ≠
      some "2014-01-02 22:00:00" := by decide

/-- Claim C1, amended: the "24:00" edge case is rewritten to "23:00" and
combined with the date without the one-hour subtraction, so
("01/02/2014", "24:00") normalizes to "2014-01-02 23:00:00" while
("01/02/2014", "23:00") normalizes to "2014-01-02 22:00:00"; the two inputs
therefore normalize to different canonical timestamps. -/
theorem claim_C1 :
    convert_date_time_tuple_into_date_time_object ("01/02/2014", "24:00") =
      some "2014-01-02 23:00:00" ∧
    convert_date_time_tuple_into_date_time_object ("01/02/2014", "23:00") =
      some "2014-01-02 22:00:00" ∧
    convert_date_time_tuple_into_date_time_object ("01/02/2014", "24:00") ≠
      convert_date_time_tuple_into_date_time_object ("01/02/2014", "23:00") := by
  decide

/-- Claim C2 (code bug): round_utc_hour_up rounds "2014-01-01 05:50:01" up to
"2014-01-01 06:00:00" as specified, but on "2014-01-01 23:10:00" it wraps the
hour to 0 with (hour + 1) % 24 and never advances the calendar date, so it
returns "2014-01-01 00:00:00" instead of the specified
"2014-01-02 00:00:00". -/
theorem claim_C2 :
    round_utc_hour_up "2014-01-01 05:50:01" = some "2014-01-01 06:00:00" ∧
    round_utc_hour_up "2014-01-01 23:10:00" = some "2014-01-01 00:00:00" ∧
    round_utc_hour_up "2014-01-01 23:10:00" ≠ some "2014-01-02 00:00:00" := by
  decide

/-- Claim C4 (code bug): the weather observation "2014-01-01 23:10:00" lies in
the hour whose ceiling is 2014-01-02 00:00:00, the same underlying hour as the
load record (date "01/02/2014", hour-ending "01:00"); the load normalizer
produces "2014-01-02 00:00:00" but the weather normalizer, lacking the date
rollover, produces "2014-01-01 00:00:00", so the two canonical strings are not
byte-for-byte identical for a weather timestamp in the last hour of a day. -/
theorem claim_C4 :
    convert_date_time_tuple_into_date_time_object ("01/02/2014", "01:00") =
      some "2014-01-02 00:00:00" ∧
    round_utc_hour_up "2014-01-01 23:10:00" = some "2014-01-01 00:00:00" ∧
    round_utc_hour_up "2014-01-01 23:10:00" ≠
      convert_date_time_tuple_into_date_time_object ("01/02/2014", "01:00") := by
  decide

/-- Claim C5: for every date string that parses and every hour-ending hour h
with 1 ≤ h ≤ 23 (the labels "01:00" through "23:00"), the normalizer returns
the canonical timestamp on the same calendar date with hour h - 1 and minute
and second zero. -/
theorem claim_C5 (ds : String) (d : PyDate) (hds : strptime_mdY ds = some d)
    (h : Nat) (h1 : 1 ≤ h) (h2 : h ≤ 23) :
    convert_date_time_tuple_into_date_time_object
        (ds, String.mk (pad2 h ++ [':', '0', '0'])) =
      some (formatDateTime d ⟨h - 1, 0, 0⟩) := by
  interval_cases h <;>
    rw [convert_eq_of_parse ds _ d hds (by decide)] <;> rfl

/-- Claim C5, witness: the hour-ending label "13:00" on the date
"01/02/2014". -/
theorem claim_C5_witness :
    convert_date_time_tuple_into_date_time_object
        ("01/02/2014", String.mk (pad2 13 ++ [':', '0', '0'])) =
      some (formatDateTime ⟨2014, 1, 2⟩ ⟨12, 0, 0⟩) :=
  claim_C5 "01/02/2014" ⟨2014, 1, 2⟩ (by decide) 13 (by decide) (by decide)

/-- Claim C9: for every date string that parses, the hour-ending "00:00"
makes the normalizer raise: the non-"24:00" branch calls
time.replace(hour=-1), which ValueErrors, so the result is none. -/
theorem claim_C9 (ds : String) (d : PyDate) (hds : strptime_mdY ds = some d) :
    convert_date_time_tuple_into_date_time_object (ds, "00:00") = none := by
  rw [convert_eq_of_parse ds "00:00" d hds (by decide)]
  rfl

/-- Claim C9, witness: the date "01/02/2014" with hour-ending "00:00". -/
theorem claim_C9_witness :
    convert_date_time_tuple_into_date_time_object ("01/02/2014", "00:00") = none :=
  claim_C9 "01/02/2014" ⟨2014, 1, 2⟩ (by decide)

/-- Claim C3, counterexample: two region files that share the timestamp
"2014-01-02 00:00:00" aggregate to a table carrying that timestamp twice:
pd.concat concatenates the row sets and neither merges the collision nor
fails. -/
theorem claim_C3_counterexample :
    ((compute_aggregate_load_data
        [[("2014-01-02 00:00:00", (5 : Nat))], [("2014-01-02 00:00:00", 7)]]).map
      Prod.fst).count "2014-01-02 00:00:00" = 2 ∧
    ¬ ((compute_aggregate_load_data
        [[("2014-01-02 00:00:00", (5 : Nat))], [("2014-01-02 00:00:00", 7)]]).map
      Prod.fst).Nodup := by decide

/-- Claim C3, amended: compute_aggregate_load_data concatenates the per-file
row sets, so every timestamp occurs in the aggregated table exactly as many
times as it occurs across all the region files; colliding rows are kept as
separate duplicate rows, not merged and not rejected. -/
theorem claim_C3 (dfs : List (List (String × α))) (ts : String) :
    ((compute_aggregate_load_data dfs).map Prod.fst).count ts =
      (dfs.map fun df => (df.map Prod.fst).count ts).sum := by
  simp only [compute_aggregate_load_data, List.map_flatten, List.count_flatten,
    List.map_map]
  rfl

/-- Claim C6: for a load table and a weather table with per-table distinct
timestamps, the inner equi-join get_total_data contains exactly the
timestamps present in both tables, and every result row carries the load
value and the weather value that the two input tables hold at its
timestamp. -/
theorem claim_C6 (loadDf : List (String × α)) (weatherDf : List (String × β))
    (hload : (loadDf.map Prod.fst).Nodup)
    (hweather : (weatherDf.map Prod.fst).Nodup) :
    (∀ ts, ts ∈ (get_total_data loadDf weatherDf).map Prod.fst ↔
        ts ∈ loadDf.map Prod.fst ∧ ts ∈ weatherDf.map Prod.fst) ∧
    (∀ r ∈ get_total_data loadDf weatherDf,
        (r.1, r.2.1) ∈ loadDf ∧ (r.1, r.2.2) ∈ weatherDf) := by
  constructor
  · intro ts
    simp only [get_total_data, merge_data_frames_by_column, List.mem_map,
      List.mem_flatMap, List.mem_filter, beq_iff_eq]
    constructor
    · rintro ⟨r, ⟨r1, hr1, hmem⟩, rfl⟩
      rcases hmem with ⟨r2, ⟨hr2, hk⟩, rfl⟩
      exact ⟨⟨r1, hr1, rfl⟩, ⟨r2, hr2, hk.symm⟩⟩
    · rintro ⟨⟨r1, hr1, rfl⟩, ⟨r2, hr2, hk2⟩⟩
      exact ⟨(r1.1, r1.2, r2.2), ⟨r1, hr1, r2, ⟨hr2, hk2.symm⟩, rfl⟩, rfl⟩
  · intro r hr
    simp only [get_total_data, merge_data_frames_by_column, List.mem_flatMap,
      List.mem_filter, List.mem_map, beq_iff_eq] at hr
    rcases hr with ⟨r1, hr1, r2, ⟨hr2, hk⟩, rfl⟩
    refine ⟨hr1, ?_⟩
    have h2 : (r2.1, r2.2) ∈ weatherDf := by simpa using hr2
    rw [hk]
    exact h2

/-- Claim C6, witness: load timestamps T1, T2, T3 joined with weather
timestamps T2, T3, T4, instantiated at the shared key "T2". -/
theorem claim_C6_witness :
    "T2" ∈ (get_total_data [("T1", (1 : Nat)), ("T2", 2), ("T3", 3)]
        [("T2", (10 : Nat)), ("T3", 11), ("T4", 12)]).map Prod.fst ↔
      "T2" ∈ ([("T1", (1 : Nat)), ("T2", 2), ("T3", 3)].map Prod.fst) ∧
      "T2" ∈ ([("T2", (10 : Nat)), ("T3", 11), ("T4", 12)].map Prod.fst) :=
  (claim_C6 _ _ (by decide) (by decide)).1 "T2"

/-- Claim C8: the discovery step scans once; when the first scan yields no
csv file it runs exactly one unzip fallback and re-scans; an ok result is
never the empty file list; an error result carries the message naming the
configured directory and only occurs when both scans yield nothing; and at
most one extraction is ever performed. -/
theorem claim_C8 (dir fam : String) (scan1 scan2 : List String) :
    ((discoverFamilyFiles dir fam scan1 scan2).2 ≤ 1) ∧
    (get_all_csv_files_in_directory scan1 = [] →
      (discoverFamilyFiles dir fam scan1 scan2).2 = 1) ∧
    (get_all_csv_files_in_directory scan1 ≠ [] →
      (discoverFamilyFiles dir fam scan1 scan2).2 = 0 ∧
      (discoverFamilyFiles dir fam scan1 scan2).1 =
        Except.ok (get_all_csv_files_in_directory scan1)) ∧
    (∀ fs, (discoverFamilyFiles dir fam scan1 scan2).1 = Except.ok fs → fs ≠ []) ∧
    (∀ e, (discoverFamilyFiles dir fam scan1 scan2).1 = Except.error e →
      e = "Missing " ++ fam ++ " data in csv format in the '" ++ dir ++ "' directory" ∧
      get_all_csv_files_in_directory scan1 = [] ∧
      get_all_csv_files_in_directory scan2 = []) := by
  by_cases h1 : get_all_csv_files_in_directory scan1 = []
  · by_cases h2 : get_all_csv_files_in_directory scan2 = []
    · simp [discoverFamilyFiles, h1, h2]
    · have h2len : (get_all_csv_files_in_directory scan2).length ≠ 0 := by
        simpa [List.length_eq_zero] using h2
      simp [discoverFamilyFiles, h1, h2len]
      exact fun hnil => h2 hnil
  · have h1len : (get_all_csv_files_in_directory scan1).length ≠ 0 := by
      simpa [List.length_eq_zero] using h1
    simp [discoverFamilyFiles, h1, h1len]

/-- Claim C8, witness: a first scan that already finds "load1.csv" performs
no extraction. -/
theorem claim_C8_witness :
    (discoverFamilyFiles "system_load_by_region" "load" ["load1.csv"] []).2 ≤ 1 :=
  (claim_C8 "system_load_by_region" "load" ["load1.csv"] []).1

/-- str.split on a list free of the separator returns that single segment. -/
theorem pySplit_no_sep (sep : Char) (xs : List Char) (h : sep ∉ xs) :
    pySplit sep xs = [xs] := by
  induction xs with
  | nil => rfl
  | cons c cs ih =>
    have hc : c ≠ sep := fun hcs => h (hcs ▸ List.mem_cons_self c cs)
    have hcs : sep ∉ cs := fun hm => h (List.mem_cons_of_mem c hm)
    simp only [pySplit, if_neg hc, ih hcs]

/-- str.split across the first separator occurrence: the separator-free part
before it becomes the first segment. -/
theorem pySplit_append_sep (sep : Char) (xs ys : List Char) (h : sep ∉ xs) :
    pySplit sep (xs ++ sep :: ys) = xs :: pySplit sep ys := by
  induction xs with
  | nil => simp [pySplit]
  | cons c cs ih =>
    have hc : c ≠ sep := fun hcs => h (hcs ▸ List.mem_cons_self c cs)
    have hcs : sep ∉ cs := fun hm => h (List.mem_cons_of_mem c hm)
    simp only [List.cons_append, pySplit, if_neg hc, List.append_eq, ih hcs]

/-- Claim C10, amended: for every path of the exact shape
"./weather_data/<code>_<rest>.csv" whose station code holds no underscore
and no slash, splitting the whole path on "_" makes "data/<code>" the
second segment (the first underscore is the one inside the directory name
"weather_data"), splitting that on "/" yields the code, and the temperature
column is named "<code>_TemperatureF"; a path of another shape can still
yield the station code. -/
theorem claim_C10 (code rest : List Char) (hu : '_' ∉ code) (hs : '/' ∉ code) :
    read_weather_temperature_column
        (String.mk ("./weather_data/".toList ++ code ++ '_' :: (rest ++ ".csv".toList))) =
      some (String.mk code ++ "_TemperatureF") := by
  have h1 : '_' ∉ "./weather".toList := by decide
  have h2 : '_' ∉ "data/".toList ++ code := by
    intro hmem
    rcases List.mem_append.mp hmem with hmem | hmem
    · exact absurd hmem (by decide)
    · exact hu hmem
  have h3 : '/' ∉ "data".toList := by decide
  have hpath : (String.mk ("./weather_data/".toList ++ code ++ '_' :: (rest ++ ".csv".toList))).toList =
      "./weather".toList ++ '_' :: (("data/".toList ++ code) ++ '_' :: (rest ++ ".csv".toList)) := rfl
  have e2 : "data/".toList ++ code = "data".toList ++ '/' :: code := rfl
  unfold read_weather_temperature_column read_weather_city
  rw [hpath, pySplit_append_sep '_' _ _ h1, pySplit_append_sep '_' _ _ h2]
  simp only [List.getElem?_cons_succ, List.getElem?_cons_zero, Option.some_bind]
  rw [e2, pySplit_append_sep '/' _ _ h3, pySplit_no_sep '/' code hs]
  rfl

/-- Claim C10, witness: the real call shape "./weather_data/" + file name,
with station code KDAL. -/
theorem claim_C10_witness :
    read_weather_temperature_column
        (String.mk ("./weather_data/".toList ++ "KDAL".toList ++
          '_' :: ("20140101".toList ++ ".csv".toList))) =
      some (String.mk "KDAL".toList ++ "_TemperatureF") :=
  claim_C10 "KDAL".toList "20140101".toList (by decide) (by decide)

/-- Claim C10, counterexample to its final clause: the path
"weather_data/KDAL_x.csv" is not of the shape "./weather_data/<code>_<rest>.csv"
(it does not start with "./", while every path of that shape does), yet the
derived column name is still the station code's "KDAL_TemperatureF". -/
theorem claim_C10_counterexample :
    read_weather_temperature_column "weather_data/KDAL_x.csv" =
      some "KDAL_TemperatureF" ∧
    "./".toList.isPrefixOf "weather_data/KDAL_x.csv".toList = false ∧
    (∀ code rest : List Char,
      "./".toList.isPrefixOf
        ("./weather_data/".toList ++ code ++ '_' :: (rest ++ ".csv".toList)) = true) :=
  ⟨by decide, by decide, fun code rest => rfl⟩

/-- Every row of an outer merge is a matched pair, a left row padded with
NaN cells on the right (its key missing from the right table), or a right
row padded with NaN cells on the left (its key missing from the left
table). -/
theorem rows_outerMergeOnDate (n1 n2 : Nat) (t1 t2 : List (String × List (Option α)))
    (k : String) (v : List (Option α)) (hr : (k, v) ∈ outerMergeOnDate n1 n2 t1 t2) :
    (∃ v1 v2, (k, v1) ∈ t1 ∧ (k, v2) ∈ t2 ∧ v = v1 ++ v2) ∨
    ((∃ v1, (k, v1) ∈ t1 ∧ v = v1 ++ List.replicate n2 none) ∧ k ∉ t2.map Prod.fst) ∨
    ((∃ v2, (k, v2) ∈ t2 ∧ v = List.replicate n1 none ++ v2) ∧ k ∉ t1.map Prod.fst) := by
  rcases List.mem_append.mp hr with hpart | hpart
  · rcases List.mem_flatMap.mp hpart with ⟨r1, hr1, hbody⟩
    by_cases hany : (t2.any fun r2 => r1.1 == r2.1) = true
    · rw [if_pos hany] at hbody
      rcases List.mem_map.mp hbody with ⟨r2, hr2f, heq⟩
      obtain ⟨hr2, hfb⟩ := List.mem_filter.mp hr2f
      have hkeyeq : r1.1 = r2.1 := by simpa using hfb
      injection heq with hk hv
      left
      refine ⟨r1.2, r2.2, ?_, ?_, hv.symm⟩
      · rw [← hk]; simpa using hr1
      · rw [← hk, hkeyeq]; simpa using hr2
    · rw [if_neg hany] at hbody
      have heq := List.mem_singleton.mp hbody
      injection heq with hk hv
      right; left
      constructor
      · exact ⟨r1.2, by rw [hk]; simpa using hr1, hv⟩
      · intro hmem
        rcases List.mem_map.mp hmem with ⟨r2, hr2, hk2⟩
        apply hany
        refine List.any_eq_true.mpr ⟨r2, hr2, ?_⟩
        exact beq_iff_eq.mpr (hk.symm.trans hk2.symm)
  · rcases List.mem_map.mp hpart with ⟨r2, hr2f, heq⟩
    obtain ⟨hr2, hallb⟩ := List.mem_filter.mp hr2f
    injection heq with hk hv
    right; right
    constructor
    · exact ⟨r2.2, by rw [← hk]; simpa using hr2, hv.symm⟩
    · intro hmem
      rcases List.mem_map.mp hmem with ⟨r1, hr1, hk1⟩
      have hfact := List.all_eq_true.mp hallb r1 hr1
      simp only [Bool.not_eq_true', beq_eq_false_iff_ne] at hfact
      exact hfact (hk1.trans hk.symm)

/-- The key set of an outer merge is the union of the two key sets. -/
theorem keys_outerMergeOnDate (n1 n2 : Nat) (t1 t2 : List (String × List (Option α)))
    (ts : String) :
    ts ∈ (outerMergeOnDate n1 n2 t1 t2).map Prod.fst ↔
      ts ∈ t1.map Prod.fst ∨ ts ∈ t2.map Prod.fst := by
  constructor
  · intro h
    rcases List.mem_map.mp h with ⟨r, hr, hk⟩
    subst hk
    rcases rows_outerMergeOnDate n1 n2 t1 t2 r.1 r.2 (by simpa using hr) with
      ⟨v1, v2, h1, h2, hv⟩ | ⟨⟨v1, h1, hv⟩, hmiss⟩ | ⟨⟨v2, h2, hv⟩, hmiss⟩
    · exact Or.inl (List.mem_map.mpr ⟨(r.1, v1), h1, rfl⟩)
    · exact Or.inl (List.mem_map.mpr ⟨(r.1, v1), h1, rfl⟩)
    · exact Or.inr (List.mem_map.mpr ⟨(r.1, v2), h2, rfl⟩)
  · intro h
    apply List.mem_map.mpr
    rcases h with h | h
    · rcases List.mem_map.mp h with ⟨r1, hr1, hk⟩
      by_cases hany : (t2.any fun r2 => r1.1 == r2.1) = true
      · rcases List.any_eq_true.mp hany with ⟨r2, hr2, hbeq⟩
        refine ⟨(r1.1, r1.2 ++ r2.2), List.mem_append.mpr (Or.inl ?_), hk⟩
        refine List.mem_flatMap.mpr ⟨r1, hr1, ?_⟩
        rw [if_pos hany]
        exact List.mem_map.mpr ⟨r2, List.mem_filter.mpr ⟨hr2, hbeq⟩, rfl⟩
      · refine ⟨(r1.1, r1.2 ++ List.replicate n2 none), List.mem_append.mpr (Or.inl ?_), hk⟩
        refine List.mem_flatMap.mpr ⟨r1, hr1, ?_⟩
        rw [if_neg hany]
        exact List.mem_singleton.mpr rfl
    · rcases List.mem_map.mp h with ⟨r2, hr2, hk⟩
      by_cases hmatch : ∃ r1 ∈ t1, r1.1 = r2.1
      · rcases hmatch with ⟨r1, hr1, hk1⟩
        have hany : (t2.any fun x => r1.1 == x.1) = true :=
          List.any_eq_true.mpr ⟨r2, hr2, beq_iff_eq.mpr hk1⟩
        refine ⟨(r1.1, r1.2 ++ r2.2), List.mem_append.mpr (Or.inl ?_), hk1.trans hk⟩
        refine List.mem_flatMap.mpr ⟨r1, hr1, ?_⟩
        rw [if_pos hany]
        exact List.mem_map.mpr ⟨r2, List.mem_filter.mpr ⟨hr2, beq_iff_eq.mpr hk1⟩, rfl⟩
      · push_neg at hmatch
        refine ⟨(r2.1, List.replicate n1 none ++ r2.2), List.mem_append.mpr (Or.inr ?_), hk⟩
        refine List.mem_map.mpr ⟨r2, List.mem_filter.mpr ⟨hr2, ?_⟩, rfl⟩
        refine List.all_eq_true.mpr fun r1 hr1 => ?_
        simpa [Bool.not_eq_true', beq_eq_false_iff_ne] using hmatch r1 hr1

/-- Rows of a one-station frame hold a single cell, and their keys are the
station table's keys. -/
theorem mem_station_frame {l : List (String × Option α)} {k : String}
    {v : List (Option α)} (h : (k, v) ∈ station_frame l) :
    (∃ x, v = [x]) ∧ k ∈ l.map Prod.fst := by
  rcases List.mem_map.mp h with ⟨r0, hr0, heq⟩
  injection heq with hk hv
  exact ⟨⟨r0.2, hv.symm⟩, hk ▸ List.mem_map.mpr ⟨r0, hr0, rfl⟩⟩

/-- The keys of a one-station frame are the station table's keys. -/
theorem keys_station_frame (l : List (String × Option α)) :
    (station_frame l).map Prod.fst = l.map Prod.fst := by
  simp only [station_frame, List.map_map]
  rfl

/-- Sorting does not change the key multiset; membership form. -/
theorem mem_keys_sort_values (t : List (String × List (Option α))) (ts : String) :
    ts ∈ (sort_values_by_date t).map Prod.fst ↔ ts ∈ t.map Prod.fst :=
  ((List.mergeSort_perm t _).map Prod.fst).mem_iff

/-- sort_values_by_date really sorts: its output is pairwise ascending in
the Date key. -/
theorem sorted_sort_values (t : List (String × List (Option α))) :
    (sort_values_by_date t).Pairwise (fun a b => a.1 ≤ b.1) := by
  have h := @List.sorted_mergeSort (String × List (Option α))
    (fun a b => decide (a.1 ≤ b.1))
    (fun a b c hab hbc =>
      decide_eq_true (le_trans (of_decide_eq_true hab) (of_decide_eq_true hbc)))
    (fun a b => by
      rcases le_total a.1 b.1 with hle | hle
      · simp [hle]
      · simp [hle]) t
  exact h.imp fun hab => of_decide_eq_true hab

/-- Claim C7: compute_aggregate_weather_data outer-joins the three
per-station tables on the Date key, so a timestamp present in at least one
station's table appears in the aggregate; every aggregated row has one cell
per station, with an explicit NaN cell (none, not a zero) in the column of
each station lacking that timestamp; and the aggregate is sorted ascending
by timestamp. -/
theorem claim_C7 (dallas_df houston_df san_antonio_df : List (String × Option α)) :
    (∀ ts, ts ∈ (compute_aggregate_weather_data dallas_df houston_df
          san_antonio_df).map Prod.fst ↔
        ts ∈ dallas_df.map Prod.fst ∨ ts ∈ houston_df.map Prod.fst ∨
          ts ∈ san_antonio_df.map Prod.fst) ∧
    (∀ r ∈ compute_aggregate_weather_data dallas_df houston_df san_antonio_df,
        r.2.length = 3 ∧
        (r.1 ∉ dallas_df.map Prod.fst → r.2[0]? = some none) ∧
        (r.1 ∉ houston_df.map Prod.fst → r.2[1]? = some none) ∧
        (r.1 ∉ san_antonio_df.map Prod.fst → r.2[2]? = some none)) ∧
    (compute_aggregate_weather_data dallas_df houston_df
      san_antonio_df).Pairwise (fun a b => a.1 ≤ b.1) := by
  refine ⟨?_, ?_, sorted_sort_values _⟩
  · intro ts
    show ts ∈ (sort_values_by_date (outerMergeOnDate 2 1
        (outerMergeOnDate 1 1 (station_frame dallas_df) (station_frame houston_df))
        (station_frame san_antonio_df))).map Prod.fst ↔ _
    rw [mem_keys_sort_values, keys_outerMergeOnDate, keys_outerMergeOnDate,
      keys_station_frame, keys_station_frame, keys_station_frame, or_assoc]
  · intro r hr
    obtain ⟨k, v⟩ := r
    have hrM : (k, v) ∈ outerMergeOnDate 2 1
        (outerMergeOnDate 1 1 (station_frame dallas_df) (station_frame houston_df))
        (station_frame san_antonio_df) := List.mem_mergeSort.mp hr
    rcases rows_outerMergeOnDate 2 1 _ _ k v hrM with
      ⟨v1, v2, h1, h2, hv⟩ | ⟨⟨v1, h1, hv⟩, hkS⟩ | ⟨⟨v2, h2, hv⟩, hkM⟩
    · obtain ⟨⟨z, hz⟩, hinS⟩ := mem_station_frame h2
      rcases rows_outerMergeOnDate 1 1 _ _ k v1 h1 with
        ⟨a, b, ha, hb, hab⟩ | ⟨⟨a, ha, hab⟩, hkH⟩ | ⟨⟨b, hb, hab⟩, hkD⟩
      · obtain ⟨⟨x, hx⟩, hinD⟩ := mem_station_frame ha
        obtain ⟨⟨y, hy⟩, hinH⟩ := mem_station_frame hb
        subst_vars
        exact ⟨rfl, fun hnd => absurd hinD hnd, fun hnh => absurd hinH hnh,
          fun hns => absurd hinS hns⟩
      · obtain ⟨⟨x, hx⟩, hinD⟩ := mem_station_frame ha
        subst_vars
        exact ⟨rfl, fun hnd => absurd hinD hnd, fun _ => rfl,
          fun hns => absurd hinS hns⟩
      · obtain ⟨⟨y, hy⟩, hinH⟩ := mem_station_frame hb
        subst_vars
        exact ⟨rfl, fun _ => rfl, fun hnh => absurd hinH hnh,
          fun hns => absurd hinS hns⟩
    · rcases rows_outerMergeOnDate 1 1 _ _ k v1 h1 with
        ⟨a, b, ha, hb, hab⟩ | ⟨⟨a, ha, hab⟩, hkH⟩ | ⟨⟨b, hb, hab⟩, hkD⟩
      · obtain ⟨⟨x, hx⟩, hinD⟩ := mem_station_frame ha
        obtain ⟨⟨y, hy⟩, hinH⟩ := mem_station_frame hb
        subst_vars
        exact ⟨rfl, fun hnd => absurd hinD hnd, fun hnh => absurd hinH hnh,
          fun _ => rfl⟩
      · obtain ⟨⟨x, hx⟩, hinD⟩ := mem_station_frame ha
        subst_vars
        exact ⟨rfl, fun hnd => absurd hinD hnd, fun _ => rfl, fun _ => rfl⟩
      · obtain ⟨⟨y, hy⟩, hinH⟩ := mem_station_frame hb
        subst_vars
        exact ⟨rfl, fun _ => rfl, fun hnh => absurd hinH hnh, fun _ => rfl⟩
    · obtain ⟨⟨z, hz⟩, hinS⟩ := mem_station_frame h2
      subst_vars
      exact ⟨rfl, fun _ => rfl, fun _ => rfl, fun hns => absurd hinS hns⟩

/-- Claim C7, witness: a timestamp covered only by the Dallas table still
appears in the aggregated weather table. -/
theorem claim_C7_witness :
    "2014-01-02 00:00:00" ∈ (compute_aggregate_weather_data
        [("2014-01-02 00:00:00", some (61 : Nat))]
        [("2014-01-02 01:00:00", some 70)] []).map Prod.fst ↔
      "2014-01-02 00:00:00" ∈ ([("2014-01-02 00:00:00", some (61 : Nat))].map Prod.fst) ∨
      "2014-01-02 00:00:00" ∈ ([("2014-01-02 01:00:00", some (70 : Nat))].map Prod.fst) ∨
      "2014-01-02 00:00:00" ∈ (([] : List (String × Option Nat)).map Prod.fst) :=
  (claim_C7 [("2014-01-02 00:00:00", some 61)] [("2014-01-02 01:00:00", some 70)] []).1
    "2014-01-02 00:00:00"
